import Mathlib

/-!
Shallow embedding of the boot-session correlation and diagnostics engine of
EasyBootManager (`src/boot_session_tracker.py`, `src/event_log_collector.py`).

Python floats (timestamps) are modelled as `Int`: every claim about them uses
only order comparisons and equality. Python `Optional[T]` is `Option T`;
Python string truthiness (`if s:`) is modelled explicitly (`truthyStr`).
File/subprocess effects are modelled by passing their results as explicit
arguments: loading and saving state is explicit state passing on
`TrackerState`, and the OS event-log subsystem is an oracle function from
the issued query to its outcome.
-/

/-- Data carried by one entry of `previous_operations`
(the `operation_data` dict built in `correlate_operation_to_boot`). -/
structure OperationRecord where
  operation_id : String
  operation_type : String
  target_entry : String
  timestamp : Int
deriving DecidableEq, Repr

/-- Embedding of `EventLogEntry` from `event_log_collector.py`. The
`raw_data` dict of parsed fields is an insertion-ordered association list. -/
structure EventLogEntry where
  event_id : Int
  timestamp : Int
  level : String
  source : String
  message : String
  raw_data : List (String × String)
deriving DecidableEq, Repr

/-- Embedding of the `BootSession` object state (`boot_session_tracker.py`).
Attached event logs are dictionaries of the `EventLogEntry.to_dict` shape. -/
structure BootSession where
  session_id : String
  boot_timestamp : Int
  previous_operations : List OperationRecord
  actual_boot_entry : Option String
  expected_boot_entry : Option String
  boot_match_status : String
  diagnosis : String
  event_logs : List EventLogEntry
deriving DecidableEq, Repr

/-- Python truthiness of an `Optional[str]`: `None` and `""` are falsy. -/
def truthyStr (o : Option String) : Bool :=
  match o with
  | none => false
  | some s => !(s.data.isEmpty)

/-- Embedding of `BootSession.__init__`: records the given fields, computes
`boot_match_status` when both entries are truthy, and starts with an empty
diagnosis and no attached events. (`previous_operations or []` yields `[]`
both for `None` and for an empty list, which `Option.getD []` matches.) -/
def BootSession.make (session_id : String) (boot_timestamp : Int)
    (previous_operations : Option (List OperationRecord))
    (actual_boot_entry expected_boot_entry : Option String) : BootSession :=
  { session_id := session_id
    boot_timestamp := boot_timestamp
    previous_operations := previous_operations.getD []
    actual_boot_entry := actual_boot_entry
    expected_boot_entry := expected_boot_entry
    boot_match_status :=
      if truthyStr actual_boot_entry && truthyStr expected_boot_entry then
        if actual_boot_entry = expected_boot_entry then "MATCH" else "MISMATCH"
      else "UNKNOWN"
    diagnosis := ""
    event_logs := [] }

/-- Embedding of `BootSession.to_dict`: the JSON object it produces, one
field per key. -/
structure BootSessionDict where
  session_id : String
  boot_timestamp : Int
  previous_operations : List OperationRecord
  actual_boot_entry : Option String
  expected_boot_entry : Option String
  boot_match_status : String
  diagnosis : String
  event_logs : List EventLogEntry
deriving DecidableEq, Repr

/-- Embedding of `BootSession.to_dict`. -/
def BootSession.to_dict (s : BootSession) : BootSessionDict :=
  { session_id := s.session_id
    boot_timestamp := s.boot_timestamp
    previous_operations := s.previous_operations
    actual_boot_entry := s.actual_boot_entry
    expected_boot_entry := s.expected_boot_entry
    boot_match_status := s.boot_match_status
    diagnosis := s.diagnosis
    event_logs := s.event_logs }

/-- Embedding of `BootSession.from_dict`: construct via `__init__`, then
overwrite status, diagnosis and event logs from the dictionary. -/
def BootSession.from_dict (d : BootSessionDict) : BootSession :=
  let s := BootSession.make d.session_id d.boot_timestamp
    (some d.previous_operations) d.actual_boot_entry d.expected_boot_entry
  { s with boot_match_status := d.boot_match_status
           diagnosis := d.diagnosis
           event_logs := d.event_logs }

/-- Embedding of `BootSession.has_event`: does any attached event-log dict
carry the given `event_id`. -/
def BootSession.has_event (s : BootSession) (event_id : Int) : Bool :=
  s.event_logs.any (fun e => e.event_id == event_id)

/-- Embedding of `BootSession.add_event_log`. -/
def BootSession.add_event_log (s : BootSession) (e : EventLogEntry) : BootSession :=
  { s with event_logs := s.event_logs ++ [e] }

/-- Keep only the last `MAX_SESSIONS` boot sessions
(`BootSessionTracker.MAX_SESSIONS`). -/
def MAX_SESSIONS : Nat := 5

/-- Mutable state of a `BootSessionTracker`. In the source,
`current_session` is either `None` or an alias of the last element of
`sessions` (it is only ever assigned the freshly appended session,
`sessions[-1]`, or `None`), so it is represented by the flag
`has_current`: the current session is `sessions[-1]` when the flag holds. -/
structure TrackerState where
  sessions : List BootSession
  last_boot_time : Option Int
  has_current : Bool
deriving DecidableEq, Repr

/-- The tracker's `current_session` attribute under the aliasing
representation of `TrackerState`. -/
def current_session (st : TrackerState) : Option BootSession :=
  if st.has_current then st.sessions.getLast? else none

/-- Apply an in-place mutation of the session aliased by
`current_session`, i.e. rewrite the last element of the stored list. -/
def mutateLast (f : BootSession → BootSession) : List BootSession → List BootSession
  | [] => []
  | [s] => [f s]
  | s :: rest => s :: mutateLast f rest

/-- List-level content of `_save_sessions`: persist only
`sessions[-MAX_SESSIONS:]`, the last `MAX_SESSIONS` elements. -/
def save_sessions_list (l : List BootSession) : List BootSession :=
  l.drop (l.length - MAX_SESSIONS)

/-- Embedding of `BootSessionTracker._save_sessions` (the tracker also
reassigns `self.sessions` to the truncated list it wrote). -/
def save_sessions (st : TrackerState) : TrackerState :=
  { st with sessions := save_sessions_list st.sessions }

/-- Session identifier synthesized from the boot timestamp. Models
`f"boot_{boot_dt.strftime('%Y%m%d_%H%M%S')}"`: a deterministic textual
rendering of the boot timestamp with the fixed `boot_` head. -/
def session_id_of (t : Int) : String := "boot_" ++ toString t

/-- Embedding of `BootSessionTracker._detect_new_boot`. The current boot
timestamp (`psutil.boot_time()`) is an explicit argument; the persisted
last-boot marker and session store travel in the state. Returns the value
`_detect_new_boot` returns together with the updated state. -/
def detect_new_boot (current_boot_time : Int) (st : TrackerState) :
    Option BootSession × TrackerState :=
  let isNew :=
    match st.last_boot_time with
    | none => true
    | some t => current_boot_time > t
  if isNew then
    let s := BootSession.make (session_id_of current_boot_time)
      current_boot_time none none none
    let st1 := { st with sessions := st.sessions ++ [s]
                         last_boot_time := some current_boot_time }
    (some s, save_sessions st1)
  else
    (st.sessions.getLast?, st)

/-- The assignment `self.current_session = self._detect_new_boot()`
performed in `__init__` and in `detect_boot_session`. -/
def detect_run (current_boot_time : Int) (st : TrackerState) : TrackerState :=
  let r := detect_new_boot current_boot_time st
  { r.2 with has_current := r.1.isSome }

/-- Embedding of `BootSessionTracker.correlate_operation_to_boot`: append
the operation record to the current session's pending list and persist, or
return `False` when there is no current session. -/
def correlate_operation_to_boot (operation_id operation_type target_entry : String)
    (timestamp : Int) (st : TrackerState) : Bool × TrackerState :=
  match current_session st with
  | some _ =>
    let op : OperationRecord :=
      { operation_id := operation_id, operation_type := operation_type
        target_entry := target_entry, timestamp := timestamp }
    let addOp := fun (s : BootSession) =>
      { s with previous_operations := s.previous_operations ++ [op] }
    let st1 := { st with sessions := mutateLast addOp st.sessions }
    (true, save_sessions st1)
  | none => (false, st)

/-- Embedding of `BootSessionTracker._generate_diagnosis` applied to the
(non-`None`) current session. -/
def generate_diagnosis (s : BootSession) : String :=
  let parts : List String :=
    (if s.previous_operations.any (fun op => op.operation_type == "BOOT_ONCE")
     then ["Boot once may have been cleared or system crashed"] else [])
    ++ ["Check operation logs for permission errors"]
    ++ (if s.has_event 41 then ["System experienced unexpected shutdown"] else [])
  if parts.isEmpty then "Boot entry mismatch - cause unknown"
  else String.intercalate " | " parts

/-- Embedding of `BootSessionTracker.verify_boot_success`: plain string
equality of the two entry identifiers. -/
def verify_boot_success (expected_entry actual_entry : String) : Bool :=
  expected_entry == actual_entry

/-- First statement group of `update_current_session`:
`self.current_session.actual_boot_entry = actual_boot_entry`. -/
def set_actual (actual_boot_entry : String) (s : BootSession) : BootSession :=
  { s with actual_boot_entry := some actual_boot_entry }

/-- Second statement group of `update_current_session`: a truthy supplied
expected entry is used directly; otherwise, when pending operations
exist, the most recent `BOOT_ONCE`/`SET_DEFAULT` operation (reverse scan,
first hit) supplies the expected entry. -/
def set_expected (expected_boot_entry : Option String) (s : BootSession) : BootSession :=
  if truthyStr expected_boot_entry then
    { s with expected_boot_entry := expected_boot_entry }
  else if !s.previous_operations.isEmpty then
    match s.previous_operations.reverse.find?
        (fun op => op.operation_type == "BOOT_ONCE"
                || op.operation_type == "SET_DEFAULT") with
    | some op => { s with expected_boot_entry := some op.target_entry }
    | none => s
  else s

/-- Third statement group of `update_current_session`: when both entries
are truthy, compute the match status via `verify_boot_success` and, on a
mismatch, store the diagnosis engine's output. -/
def compute_match (s : BootSession) : BootSession :=
  if truthyStr s.actual_boot_entry && truthyStr s.expected_boot_entry then
    let m := verify_boot_success (s.expected_boot_entry.getD "")
      (s.actual_boot_entry.getD "")
    let s := { s with boot_match_status := if m then "MATCH" else "MISMATCH" }
    if m then s else { s with diagnosis := generate_diagnosis s }
  else s

/-- Effect of the body of `update_current_session` on the (aliased)
current session: the three statement groups in source order. -/
def resolve_session (actual_boot_entry : String) (expected_boot_entry : Option String)
    (s : BootSession) : BootSession :=
  compute_match (set_expected expected_boot_entry (set_actual actual_boot_entry s))

/-- Embedding of `BootSessionTracker.update_current_session`. All
mutations of `self.current_session` act on the aliased last stored
session; `_save_sessions` runs at the end. -/
def update_current_session (actual_boot_entry : String)
    (expected_boot_entry : Option String) (st : TrackerState) : TrackerState :=
  match current_session st with
  | none => st
  | some _ =>
    let f := resolve_session actual_boot_entry expected_boot_entry
    save_sessions { st with sessions := mutateLast f st.sessions }

/-- Does `pat` occur at the head of `l`. -/
def subAt : List Char → List Char → Bool
  | [], _ => true
  | _ :: _, [] => false
  | a :: as, b :: bs => a == b && subAt as bs

/-- Does `pat` occur anywhere in `l`. -/
def hasSub : List Char → List Char → Bool
  | [], pat => subAt pat []
  | a :: t, pat => subAt pat (a :: t) || hasSub t pat

/-- Case-sensitive substring test on strings. -/
def containsSub (hay pat : String) : Bool := hasSub hay.data pat.data

example : containsSub "abcdef" "cde" = true := by decide
example : containsSub "abcdef" "Cde" = false := by decide
example :
    generate_diagnosis (BootSession.make "s" 0 none none none) =
      "Check operation logs for permission errors" := by decide
example :
    (detect_new_boot 10 { sessions := [], last_boot_time := none, has_current := false }).2.last_boot_time
      = some 10 := by decide

/-- Drop leading characters satisfying `p`. -/
def dropWhileChar (p : Char → Bool) : List Char → List Char
  | [] => []
  | c :: cs => if p c then dropWhileChar p cs else c :: cs

/-- Whitespace trimming of both ends, modelling Python `str.strip()`. -/
def trimChars (l : List Char) : List Char :=
  (dropWhileChar Char.isWhitespace (dropWhileChar Char.isWhitespace l).reverse).reverse

/-- String-level `strip()`. -/
def strTrim (s : String) : String := ⟨trimChars s.data⟩

/-- Split a character list on every occurrence of `sep`, keeping empty
chunks, modelling Python `str.split(sep)`. -/
def splitOnChar (sep : Char) : List Char → List (List Char)
  | [] => [[]]
  | c :: cs =>
    let r := splitOnChar sep cs
    if c = sep then [] :: r
    else
      match r with
      | [] => [[c]]
      | h :: t => (c :: h) :: t

/-- Split on runs of whitespace dropping empty chunks: the shape a literal
space inside a `strptime` format accepts (it matches one or more
whitespace characters). -/
def wsSplit (l : List Char) : List (List Char) :=
  (splitOnChar ' ' l).filter (fun c => !c.isEmpty)

/-- Split at the first colon only, modelling Python `line.split(':', 1)`
when a colon is present. -/
def splitFirstColon : List Char → Option (List Char × List Char)
  | [] => none
  | c :: rest =>
    if c = ':' then some ([], rest)
    else (splitFirstColon rest).map (fun p => (c :: p.1, p.2))

/-- Numeric value of a digit string. -/
def digitsVal (l : List Char) : Nat :=
  l.foldl (fun a c => a * 10 + (c.toNat - 48)) 0

/-- Is the character list a non-empty run of ASCII digits. -/
def allDigits (l : List Char) : Bool := !l.isEmpty && l.all Char.isDigit

/-- Parse a digit field of between `lo` and `hi` digits, as the regexes
`strptime` builds for `%Y` (exactly 4) and `%m`/`%d`/`%H`/`%I`/`%M`/`%S`
(1 or 2) do. -/
def parseDigits (l : List Char) (lo hi : Nat) : Option Nat :=
  if allDigits l && lo ≤ l.length && l.length ≤ hi then some (digitsVal l) else none

/-- Gregorian leap-year test, as `datetime` uses. -/
def isLeapYear (y : Nat) : Bool := (y % 4 == 0 && y % 100 != 0) || y % 400 == 0

/-- Length of a month in the proleptic Gregorian calendar. -/
def daysInMonth (y m : Nat) : Nat :=
  match m with
  | 2 => if isLeapYear y then 29 else 28
  | 4 => 30 | 6 => 30 | 9 => 30 | 11 => 30
  | _ => 31

/-- Days contributed by the full months before month `m` of year `y`. -/
def cumDays (y m : Nat) : Nat :=
  (List.range (m - 1)).foldl (fun a i => a + daysInMonth y (i + 1)) 0

/-- Proleptic-Gregorian ordinal of a date minus one
(`datetime.date.toordinal() - 1`; ordinal 1 is 0001-01-01). -/
def ordinalPred (y m d : Nat) : Nat :=
  365 * (y - 1) + (y - 1) / 4 - (y - 1) / 100 + (y - 1) / 400 + cumDays y m + (d - 1)

/-- Seconds since the epoch for a civil datetime. `datetime.timestamp()`
applies the machine's local UTC offset, which is environment data the
claims do not depend on; the offset is modelled as zero (UTC).
1970-01-01 has `ordinalPred` 719162. -/
def civilTimestamp (y m d h mi s : Nat) : Int :=
  ((ordinalPred y m d : Int) - 719162) * 86400 + h * 3600 + mi * 60 + s

/-- Range validation performed by the `datetime` constructor (a failed
construction raises `ValueError`, which `_parse_event_timestamp` treats
as a failed format). -/
def validDate (y m d h mi s : Nat) : Bool :=
  1 ≤ y && y ≤ 9999 && 1 ≤ m && m ≤ 12 && 1 ≤ d && d ≤ daysInMonth y m
    && h ≤ 23 && mi ≤ 59 && s ≤ 59

/-- Validated civil datetime to timestamp. -/
def mkTs (y m d h mi s : Nat) : Option Int :=
  if validDate y m d h mi s then some (civilTimestamp y m d h mi s) else none

/-- Parse an `HH:MM:SS` field triple. -/
def parseHMS (l : List Char) : Option (Nat × Nat × Nat) :=
  match splitOnChar ':' l with
  | [hS, miS, sS] => do
    let h ← parseDigits hS 1 2
    let mi ← parseDigits miS 1 2
    let s ← parseDigits sS 1 2
    pure (h, mi, s)
  | _ => none

/-- Parse `'%m/%d/%Y %I:%M:%S %p'` (US format with AM/PM). `strptime`
matches `%p` case-insensitively, admits only 1-12 for `%I`, and converts
to a 24-hour clock after the match. -/
def parseUS (l : List Char) : Option Int :=
  match wsSplit l with
  | [dp, tp, ap] =>
    match splitOnChar '/' dp with
    | [mS, dS, yS] => do
      let mo ← parseDigits mS 1 2
      let da ← parseDigits dS 1 2
      let yr ← parseDigits yS 4 4
      let (h12, mi, s) ← parseHMS tp
      if h12 < 1 || 12 < h12 then none
      else do
        let isPM ←
          if ap.map Char.toUpper = "PM".data then some true
          else if ap.map Char.toUpper = "AM".data then some false
          else none
        let h :=
          if isPM then (if h12 == 12 then 12 else h12 + 12)
          else (if h12 == 12 then 0 else h12)
        mkTs yr mo da h mi s
    | _ => none
  | _ => none

/-- Parse `'%Y-%m-%d %H:%M:%S'` (ISO format). -/
def parseISO (l : List Char) : Option Int :=
  match wsSplit l with
  | [dp, tp] =>
    match splitOnChar '-' dp with
    | [yS, mS, dS] => do
      let yr ← parseDigits yS 4 4
      let mo ← parseDigits mS 1 2
      let da ← parseDigits dS 1 2
      let (h, mi, s) ← parseHMS tp
      mkTs yr mo da h mi s
    | _ => none
  | _ => none

/-- Parse `'%d/%m/%Y %H:%M:%S'` (EU format). -/
def parseEU (l : List Char) : Option Int :=
  match wsSplit l with
  | [dp, tp] =>
    match splitOnChar '/' dp with
    | [dS, mS, yS] => do
      let da ← parseDigits dS 1 2
      let mo ← parseDigits mS 1 2
      let yr ← parseDigits yS 4 4
      let (h, mi, s) ← parseHMS tp
      mkTs yr mo da h mi s
    | _ => none
  | _ => none

/-- Embedding of `WindowsEventLogCollector._parse_event_timestamp`: strip
the input, try the three formats in order, fall back to the current time
(`time.time()`, the explicit `now` argument) when every format fails. -/
def parse_event_timestamp (date_str : String) (now : Int) : Int :=
  let t := trimChars date_str.data
  match parseUS t with
  | some v => v
  | none =>
    match parseISO t with
    | some v => v
    | none =>
      match parseEU t with
      | some v => v
      | none => now

/-- Model of Python `int(str)` on ASCII inputs: surrounding whitespace and
one optional sign are accepted around a non-empty digit run (digit-group
underscores and non-ASCII digits are outside the modelled inputs). -/
def pyInt (s : String) : Option Int :=
  match trimChars s.data with
  | '+' :: rest => if allDigits rest then some (digitsVal rest : Int) else none
  | '-' :: rest => if allDigits rest then some (-(digitsVal rest : Int)) else none
  | t => if allDigits t then some (digitsVal t : Int) else none

/-- Insert into a Python dict modelled as an insertion-ordered association
list: assignment to an existing key overwrites in place. -/
def dictInsert (k v : String) (d : List (String × String)) : List (String × String) :=
  if d.any (fun kv => kv.1 == k) then
    d.map (fun kv => if kv.1 == k then (k, v) else kv)
  else d ++ [(k, v)]

/-- Python `dict.get(k, default)`. -/
def dictGet (d : List (String × String)) (k dflt : String) : String :=
  match d.find? (fun kv => kv.1 == k) with
  | some kv => kv.2
  | none => dflt

/-- Embedding of `WindowsEventLogCollector._create_event_entry`. The only
statement in its `try` block that can raise is `int(event_id_str)`; on
that failure the method returns `None`. -/
def create_event_entry (event_data : List (String × String)) (log_name : String)
    (now : Int) : Option EventLogEntry :=
  match pyInt (dictGet event_data "Event ID" "0") with
  | none => none
  | some eid =>
    some { event_id := eid
           timestamp := parse_event_timestamp (dictGet event_data "Date" "") now
           level := dictGet event_data "Level" "Information"
           source := dictGet event_data "Source" log_name
           message := dictGet event_data "Description" "No description"
           raw_data := event_data }

/-- Line loop of `WindowsEventLogCollector._parse_event_output`: group
stripped lines into blank-line-delimited paragraphs of `key: value`
pairs; every finished paragraph is passed to `_create_event_entry` and
the result — `None` included — is appended to the output list. -/
def parseEventsGo (log_name : String) (now : Int) :
    List (List Char) → List (String × String) → List (Option EventLogEntry) →
    List (Option EventLogEntry)
  | [], cur, acc =>
    if cur.isEmpty then acc else acc ++ [create_event_entry cur log_name now]
  | l :: rest, cur, acc =>
    let l := trimChars l
    if l.isEmpty then
      if cur.isEmpty then parseEventsGo log_name now rest cur acc
      else parseEventsGo log_name now rest [] (acc ++ [create_event_entry cur log_name now])
    else
      match splitFirstColon l with
      | some (k, v) =>
        parseEventsGo log_name now rest (dictInsert ⟨trimChars k⟩ ⟨trimChars v⟩ cur) acc
      | none => parseEventsGo log_name now rest cur acc

/-- Embedding of `WindowsEventLogCollector._parse_event_output`. -/
def parse_event_output (output : String) (log_name : String) (now : Int) :
    List (Option EventLogEntry) :=
  parseEventsGo log_name now (splitOnChar '\n' output.data) [] []

/-- Parameters of one `wevtutil qe` invocation issued by `_query_log`:
the log name, the optional `event_id_filter` XPath fragment, and the
`/c:` event budget. -/
structure QuerySpec where
  log_name : String
  event_id_filter : Option String
  max_events : Nat
deriving DecidableEq, Repr

/-- Result of one external `wevtutil` invocation: completed with a return
code and stdout, timed out (`subprocess.TimeoutExpired`), or raised some
other exception. -/
inductive QueryOutcome where
  | ok : Int → String → QueryOutcome
  | timeout : QueryOutcome
  | failure : QueryOutcome
deriving DecidableEq, Repr

/-- The `BOOT_EVENT_IDS` allow-list. -/
def BOOT_EVENT_IDS : List Nat := [12, 13, 27, 41, 1001, 6005, 6006, 6008, 6009]

/-- The XPath identifier filter `' or '.join(f"EventID={eid}" ...)` built
in `collect_boot_events`. -/
def event_id_filter : String :=
  String.intercalate " or " (BOOT_EVENT_IDS.map (fun eid => "EventID=" ++ toString eid))

/-- Embedding of `WindowsEventLogCollector._check_permissions`: `True`
exactly when the probe query completed with return code 0; any exception
(timeouts included) yields `False`. -/
def check_permissions (probe : QueryOutcome) : Bool :=
  match probe with
  | .ok rc _ => rc == 0
  | .timeout => false
  | .failure => false

/-- Embedding of `WindowsEventLogCollector._query_log`: issue the query,
parse stdout on return code 0, and degrade to an empty list on a nonzero
return code, a timeout, or any other exception. -/
def query_log (env : QuerySpec → QueryOutcome) (now : Int) (log_name : String)
    (filt : Option String) (max_events : Nat) : List (Option EventLogEntry) :=
  match env { log_name := log_name, event_id_filter := filt, max_events := max_events } with
  | .ok rc out => if rc == 0 then parse_event_output out log_name now else []
  | .timeout => []
  | .failure => []

/-- Python truthiness of an `Optional[float]`: `None` and `0` are falsy
(`if since_timestamp:`). -/
def truthyInt (o : Option Int) : Bool :=
  match o with
  | none => false
  | some t => t != 0

/-- Stable descending insertion by timestamp. -/
def insertDescTs (e : EventLogEntry) : List EventLogEntry → List EventLogEntry
  | [] => [e]
  | x :: xs => if x.timestamp ≤ e.timestamp then e :: x :: xs else x :: insertDescTs e xs

/-- Stable sort by timestamp, most recent first: the effect of
`events.sort(key=lambda x: x.timestamp, reverse=True)`. -/
def sortDescTs : List EventLogEntry → List EventLogEntry
  | [] => []
  | x :: xs => insertDescTs x (sortDescTs xs)

/-- Filter, sort and truncate step of `collect_boot_events`. When the
parsed lists contain a `None` (a paragraph `_create_event_entry` gave up
on), the `e.timestamp` access in the filter comprehension or in the sort
key raises `AttributeError`, the surrounding `except` catches it, and the
whole call returns `[]`. -/
def postprocess_events (raw : List (Option EventLogEntry)) (since_timestamp : Option Int)
    (max_events : Nat) : List EventLogEntry :=
  if raw.any (fun o => o.isNone) then []
  else
    let events := raw.filterMap id
    let events :=
      if truthyInt since_timestamp then
        events.filter (fun e => since_timestamp.getD 0 ≤ e.timestamp)
      else events
    (sortDescTs events).take max_events

/-- Embedding of `WindowsEventLogCollector.collect_boot_events`: empty
without permission; otherwise merge the identifier-filtered `System`
query with an unfiltered `Application` query at half the budget, then
filter, sort and truncate. -/
def collect_boot_events (has_permission : Bool) (env : QuerySpec → QueryOutcome)
    (now : Int) (since_timestamp : Option Int) (max_events : Nat) : List EventLogEntry :=
  if !has_permission then []
  else
    postprocess_events
      (query_log env now "System" (some event_id_filter) max_events
        ++ query_log env now "Application" none (max_events / 2))
      since_timestamp max_events

example :
    (parse_event_output
      "Event ID: 12\nDate: 2024-01-01 10:00:00\nLevel: Information\nSource: Kernel\nDescription: boot"
      "System" 999).map (fun o => o.map (fun e => (e.event_id, e.level, e.source, e.message)))
    = [some (12, "Information", "Kernel", "boot")] := by decide

example : parse_event_timestamp "1970-01-01 00:00:10" 7 = 10 := by decide
example : parse_event_timestamp "01/02/1970 12:00:01 AM" 7 = 86401 := by decide
example : parse_event_timestamp "02/01/1970 10:00:00" 7 = 86400 + 36000 := by decide
example : parse_event_timestamp "02/01/1970 25:00:00" 7 = 7 := by decide
example : parse_event_timestamp "garbage" 7 = 7 := by decide
example : pyInt " 42 " = some 42 := by decide
example : pyInt "abc" = none := by decide

theorem mutateLast_getLast (f : BootSession → BootSession) :
    ∀ l : List BootSession, (mutateLast f l).getLast? = (l.getLast?).map f := by
  intro l
  induction l with
  | nil => rfl
  | cons a t ih =>
    cases t with
    | nil => rfl
    | cons b t2 =>
      obtain ⟨c, cs, hc⟩ : ∃ c cs, mutateLast f (b :: t2) = c :: cs := by
        cases t2 with
        | nil => exact ⟨f b, [], rfl⟩
        | cons c t3 => exact ⟨b, mutateLast f (c :: t3), rfl⟩
      show (a :: mutateLast f (b :: t2)).getLast? = ((a :: b :: t2).getLast?).map f
      rw [hc, List.getLast?_cons_cons, ← hc, ih, List.getLast?_cons_cons]

theorem getLast_drop_of_lt :
    ∀ (l : List BootSession) (k : Nat), k < l.length →
      (l.drop k).getLast? = l.getLast? := by
  intro l
  induction l with
  | nil => intro k h; simp at h
  | cons a t ih =>
    intro k h
    cases k with
    | zero => rfl
    | succ k =>
      have ht : k < t.length := by simpa using h
      have h2 := ih k ht
      cases t with
      | nil => simp at ht
      | cons b t2 =>
        show ((b :: t2).drop k).getLast? = (a :: b :: t2).getLast?
        rw [List.getLast?_cons_cons]
        exact h2

theorem save_list_length (l : List BootSession) :
    (save_sessions_list l).length ≤ MAX_SESSIONS := by
  simp [save_sessions_list, MAX_SESSIONS]
  omega

theorem save_list_getLast (l : List BootSession) (h : l ≠ []) :
    (save_sessions_list l).getLast? = l.getLast? := by
  apply getLast_drop_of_lt
  have : 0 < l.length := List.length_pos.mpr h
  have : MAX_SESSIONS = 5 := rfl
  omega

theorem detect_run_length (t : Int) (st : TrackerState)
    (h : st.sessions.length ≤ MAX_SESSIONS) :
    (detect_run t st).sessions.length ≤ MAX_SESSIONS := by
  unfold detect_run detect_new_boot
  cases hl : st.last_boot_time with
  | none => simpa [save_sessions] using save_list_length _
  | some lb =>
    by_cases hlt : lb < t
    · simp only [hl]
      simpa [hlt, save_sessions] using save_list_length _
    · simpa [hl, hlt] using h

/-- C9: serializing a `BootSession` to its dictionary form and
deserializing it back restores every field, pending operations and
attached events included. -/
theorem c9_session_roundtrip (s : BootSession) :
    BootSession.from_dict (BootSession.to_dict s) = s := by
  cases s
  rfl

/-- C4: persisting the session store keeps at most `MAX_SESSIONS`
sessions, what it keeps is a tail of the store (so eviction removes only
the oldest, earliest-appended sessions), and any number of boot
detections leaves a store within the bound. -/
theorem c4_store_bound (st : TrackerState) :
    (save_sessions st).sessions.length ≤ MAX_SESSIONS ∧
    (∃ k, (save_sessions st).sessions = st.sessions.drop k) ∧
    (∀ ts : List Int, st.sessions.length ≤ MAX_SESSIONS →
      ((ts.foldl (fun s t => detect_run t s) st).sessions.length ≤ MAX_SESSIONS)) := by
  refine ⟨save_list_length _, ⟨st.sessions.length - MAX_SESSIONS, rfl⟩, ?_⟩
  intro ts
  induction ts generalizing st with
  | nil => intro h; simpa using h
  | cons t ts ih =>
    intro h
    exact ih _ (detect_run_length t st h)

theorem c4_store_bound_witness :
    ((([1, 2, 3, 4, 5, 6, 7] : List Int).foldl (fun s t => detect_run t s)
        { sessions := [], last_boot_time := none, has_current := false }).sessions.length
      ≤ MAX_SESSIONS) :=
  (c4_store_bound { sessions := [], last_boot_time := none, has_current := false }).2.2
    [1, 2, 3, 4, 5, 6, 7] (by decide)

theorem getLast_append_single (l : List BootSession) (s : BootSession) :
    (l ++ [s]).getLast? = some s := by
  induction l with
  | nil => rfl
  | cons a t ih =>
    cases h : t ++ [s] with
    | nil => simp at h
    | cons c cs =>
      show (a :: (t ++ [s])).getLast? = some s
      rw [h, List.getLast?_cons_cons, ← h, ih]

/-- C1: when the persisted marker is absent or strictly below the current
boot timestamp, detection creates a session whose identifier derives from
the timestamp and whose pending operations are empty, appends it to the
(evicted) store and updates the marker, and a repeated detection then
returns that same session without changing the state; otherwise — equal
timestamps included — nothing is created and the most recently stored
session is returned with the state unchanged. -/
theorem c1_detect_or_create (t : Int) (st : TrackerState) :
    ((st.last_boot_time = none ∨ ∃ lb, st.last_boot_time = some lb ∧ lb < t) →
      detect_new_boot t st =
        (some (BootSession.make (session_id_of t) t none none none),
          { sessions := save_sessions_list
              (st.sessions ++ [BootSession.make (session_id_of t) t none none none])
            last_boot_time := some t
            has_current := st.has_current }) ∧
      detect_new_boot t (detect_new_boot t st).2 =
        ((detect_new_boot t st).1, (detect_new_boot t st).2)) ∧
    (∀ lb, st.last_boot_time = some lb → t ≤ lb →
      detect_new_boot t st = (st.sessions.getLast?, st)) := by
  constructor
  · intro h
    have hfirst : detect_new_boot t st =
        (some (BootSession.make (session_id_of t) t none none none),
          { sessions := save_sessions_list
              (st.sessions ++ [BootSession.make (session_id_of t) t none none none])
            last_boot_time := some t
            has_current := st.has_current }) := by
      rcases h with hnone | ⟨lb, hlb, hlt⟩
      · simp [detect_new_boot, hnone, save_sessions]
      · simp [detect_new_boot, hlb, hlt, save_sessions]
    refine ⟨hfirst, ?_⟩
    rw [hfirst]
    have hlast : (save_sessions_list
        (st.sessions ++ [BootSession.make (session_id_of t) t none none none])).getLast?
        = some (BootSession.make (session_id_of t) t none none none) := by
      rw [save_list_getLast _ (by simp), getLast_append_single]
    simp [detect_new_boot, hlast]
  · intro lb hlb hle
    simp [detect_new_boot, hlb, not_lt.mpr hle]

theorem c1_detect_or_create_witness :
    detect_new_boot 10 { sessions := [], last_boot_time := some 4, has_current := false } =
      (some (BootSession.make (session_id_of 10) 10 none none none),
        { sessions := save_sessions_list
            ([] ++ [BootSession.make (session_id_of 10) 10 none none none])
          last_boot_time := some 10
          has_current := false }) :=
  ((c1_detect_or_create 10
    { sessions := [], last_boot_time := some 4, has_current := false }).1
    (Or.inr ⟨4, rfl, by decide⟩)).1

/-- C10: observing the same boot with an empty session store yields no
current session (`None`), and recording an operation intent then returns
`False` and leaves the tracker state untouched. -/
theorem c10_same_boot_empty_store (t lb : Int) (st : TrackerState)
    (hlb : st.last_boot_time = some lb) (hle : t ≤ lb) (hempty : st.sessions = []) :
    (detect_new_boot t st).1 = none ∧ (detect_new_boot t st).2 = st ∧
    current_session (detect_run t st) = none ∧
    (∀ oid otype target : String, ∀ ots : Int,
      correlate_operation_to_boot oid otype target ots (detect_run t st) =
        (false, detect_run t st)) := by
  have hd : detect_new_boot t st = (st.sessions.getLast?, st) := by
    simp [detect_new_boot, hlb, not_lt.mpr hle]
  have hnone : (detect_new_boot t st).1 = none := by rw [hd, hempty]; rfl
  have hrun : detect_run t st = { st with has_current := false } := by
    simp only [detect_run, hd, hempty]
    rfl
  have hcur : current_session (detect_run t st) = none := by
    rw [hrun]
    simp [current_session]
  refine ⟨hnone, by rw [hd], hcur, ?_⟩
  intro oid otype target ots
  unfold correlate_operation_to_boot
  rw [hcur]

theorem c10_same_boot_empty_store_witness :
    current_session (detect_run 5
      { sessions := [], last_boot_time := some 5, has_current := false }) = none ∧
    correlate_operation_to_boot "op1" "BOOT_ONCE" "entry-a" 77
      (detect_run 5 { sessions := [], last_boot_time := some 5, has_current := false }) =
      (false, detect_run 5 { sessions := [], last_boot_time := some 5, has_current := false }) := by
  have h := c10_same_boot_empty_store 5 5
    { sessions := [], last_boot_time := some 5, has_current := false }
    rfl (by decide) rfl
  exact ⟨h.2.2.1, h.2.2.2 "op1" "BOOT_ONCE" "entry-a" 77⟩

theorem data_nil_iff (x : String) : x.data = [] ↔ x = "" := by
  constructor
  · intro h
    cases x with
    | mk d => cases h; rfl
  · intro h
    rw [h]

theorem truthyStr_some (x : String) (h : x ≠ "") : truthyStr (some x) = true := by
  show (!x.data.isEmpty) = true
  cases hx : x.data with
  | nil => exact absurd ((data_nil_iff x).mp hx) h
  | cons a t => rfl

theorem current_session_eq_some (st : TrackerState) (s : BootSession)
    (h : current_session st = some s) :
    st.has_current = true ∧ st.sessions.getLast? = some s := by
  unfold current_session at h
  cases hc : st.has_current with
  | false => rw [hc] at h; simp at h
  | true => rw [hc] at h; simpa using h

theorem update_current_session_eq (st : TrackerState) (s : BootSession)
    (actual : String) (expected : Option String)
    (h : current_session st = some s) :
    current_session (update_current_session actual expected st) =
      some (resolve_session actual expected s) := by
  obtain ⟨hc, hl⟩ := current_session_eq_some st s h
  unfold update_current_session
  rw [h]
  have hgl := mutateLast_getLast (resolve_session actual expected) st.sessions
  rw [hl] at hgl
  have hne : mutateLast (resolve_session actual expected) st.sessions ≠ [] := by
    intro heq
    rw [heq] at hgl
    simp at hgl
  show current_session (save_sessions _) = _
  unfold current_session save_sessions
  simp only [hc, if_true]
  show (save_sessions_list (mutateLast (resolve_session actual expected) st.sessions)).getLast? = _
  rw [save_list_getLast _ hne, hgl]
  rfl

theorem set_expected_fields (e : Option String) (s : BootSession) :
    (set_expected e s).actual_boot_entry = s.actual_boot_entry ∧
    (set_expected e s).previous_operations = s.previous_operations ∧
    (set_expected e s).event_logs = s.event_logs ∧
    (set_expected e s).boot_match_status = s.boot_match_status ∧
    (set_expected e s).diagnosis = s.diagnosis := by
  unfold set_expected
  split
  · exact ⟨rfl, rfl, rfl, rfl, rfl⟩
  · split
    · split <;> exact ⟨rfl, rfl, rfl, rfl, rfl⟩
    · exact ⟨rfl, rfl, rfl, rfl, rfl⟩

theorem compute_match_fields (s : BootSession) :
    (compute_match s).actual_boot_entry = s.actual_boot_entry ∧
    (compute_match s).expected_boot_entry = s.expected_boot_entry ∧
    (compute_match s).previous_operations = s.previous_operations ∧
    (compute_match s).event_logs = s.event_logs := by
  unfold compute_match
  cases h : (truthyStr s.actual_boot_entry && truthyStr s.expected_boot_entry) with
  | false => simp [h]
  | true =>
    cases hm : verify_boot_success (s.expected_boot_entry.getD "")
        (s.actual_boot_entry.getD "") with
    | true => simp [h, hm]
    | false => simp [h, hm]

theorem generate_diagnosis_congr (s₁ s₂ : BootSession)
    (hp : s₁.previous_operations = s₂.previous_operations)
    (he : s₁.event_logs = s₂.event_logs) :
    generate_diagnosis s₁ = generate_diagnosis s₂ := by
  unfold generate_diagnosis BootSession.has_event
  rw [hp, he]

theorem compute_match_spec (s : BootSession)
    (hT : (truthyStr s.actual_boot_entry && truthyStr s.expected_boot_entry) = true) :
    (compute_match s).boot_match_status =
      (if verify_boot_success (s.expected_boot_entry.getD "") (s.actual_boot_entry.getD "")
       then "MATCH" else "MISMATCH") ∧
    (compute_match s).diagnosis =
      (if verify_boot_success (s.expected_boot_entry.getD "") (s.actual_boot_entry.getD "")
       then s.diagnosis else generate_diagnosis s) := by
  unfold compute_match
  cases hm : verify_boot_success (s.expected_boot_entry.getD "")
      (s.actual_boot_entry.getD "") with
  | true => constructor <;> simp [hT, hm]
  | false =>
    constructor
    · simp [hT, hm]
    · simp only [hT, hm, if_true, Bool.false_eq_true, if_false]
      exact generate_diagnosis_congr _ _ rfl rfl

theorem set_actual_fields (a : String) (s : BootSession) :
    (set_actual a s).actual_boot_entry = some a ∧
    (set_actual a s).previous_operations = s.previous_operations ∧
    (set_actual a s).expected_boot_entry = s.expected_boot_entry ∧
    (set_actual a s).event_logs = s.event_logs :=
  ⟨rfl, rfl, rfl, rfl⟩

theorem set_expected_spec_some (x : String) (hx : x ≠ "") (s : BootSession) :
    (set_expected (some x) s).expected_boot_entry = some x := by
  simp [set_expected, truthyStr_some x hx]

theorem set_expected_spec_none (s : BootSession) :
    (set_expected none s).expected_boot_entry =
      (match s.previous_operations.reverse.find?
           (fun op => op.operation_type == "BOOT_ONCE"
                   || op.operation_type == "SET_DEFAULT") with
       | some op => some op.target_entry
       | none => s.expected_boot_entry) := by
  cases hp : s.previous_operations with
  | nil => simp [set_expected, truthyStr, hp]
  | cons a t =>
    simp only [set_expected, truthyStr, Bool.false_eq_true, if_false, hp]
    cases hf : (a :: t).reverse.find?
        (fun op => op.operation_type == "BOOT_ONCE"
                || op.operation_type == "SET_DEFAULT") with
    | some op => simp [hf]
    | none => simp [hf]

theorem generate_diagnosis_content (s : BootSession) :
    containsSub (generate_diagnosis s) "permission errors" = true ∧
    generate_diagnosis s ≠ "" ∧
    generate_diagnosis s ≠ "Boot entry mismatch - cause unknown" := by
  unfold generate_diagnosis
  cases h1 : s.previous_operations.any (fun op => op.operation_type == "BOOT_ONCE") with
  | true =>
    cases h2 : s.has_event 41 with
    | true => decide
    | false => decide
  | false =>
    cases h2 : s.has_event 41 with
    | true => decide
    | false => decide

theorem generate_diagnosis_bootonce (s : BootSession)
    (h1 : s.previous_operations.any (fun op => op.operation_type == "BOOT_ONCE") = true) :
    containsSub (generate_diagnosis s) "Boot once may have been cleared" = true := by
  unfold generate_diagnosis
  rw [h1]
  cases h2 : s.has_event 41 with
  | true => decide
  | false => decide

/-- C2: resolving the boot outcome stores the actual entry, takes a
supplied (non-empty) expected entry as-is and otherwise derives it from
the most recent pending `BOOT_ONCE`/`SET_DEFAULT` operation (reverse
scan), and, once both entries are known, sets the status to `MATCH`
exactly on plain string equality and to `MISMATCH` otherwise, storing the
diagnosis engine's output on a mismatch. -/
theorem c2_resolve_outcome (st : TrackerState) (s : BootSession) (actual : String)
    (expected : Option String) (hcur : current_session st = some s)
    (ha : actual ≠ "") (hexp : ∀ e, expected = some e → e ≠ "") :
    ∃ s', current_session (update_current_session actual expected st) = some s' ∧
      s'.previous_operations = s.previous_operations ∧
      s'.actual_boot_entry = some actual ∧
      (∀ e, expected = some e → s'.expected_boot_entry = some e) ∧
      (expected = none → s'.expected_boot_entry =
        (match s.previous_operations.reverse.find?
             (fun op => op.operation_type == "BOOT_ONCE"
                     || op.operation_type == "SET_DEFAULT") with
         | some op => some op.target_entry
         | none => s.expected_boot_entry)) ∧
      (∀ e, s'.expected_boot_entry = some e → e ≠ "" →
        s'.boot_match_status = (if e = actual then "MATCH" else "MISMATCH") ∧
        (e ≠ actual → s'.diagnosis = generate_diagnosis s')) := by
  obtain ⟨e1, e2, e3, e4, e5⟩ := set_expected_fields expected (set_actual actual s)
  obtain ⟨f1, f2, f3, f4⟩ := compute_match_fields (set_expected expected (set_actual actual s))
  refine ⟨resolve_session actual expected s,
    update_current_session_eq st s actual expected hcur, ?_, ?_, ?_, ?_, ?_⟩
  · show (compute_match _).previous_operations = _
    rw [f3, e2, (set_actual_fields actual s).2.1]
  · show (compute_match _).actual_boot_entry = some actual
    rw [f1, e1, (set_actual_fields actual s).1]
  · intro e hee
    show (compute_match _).expected_boot_entry = some e
    rw [f2, hee, set_expected_spec_some e (hexp e hee) (set_actual actual s)]
  · intro hnone
    show (compute_match _).expected_boot_entry = _
    rw [f2, hnone, set_expected_spec_none (set_actual actual s),
      (set_actual_fields actual s).2.1, (set_actual_fields actual s).2.2.1]
  · intro e hE he
    have hact2 : (set_expected expected (set_actual actual s)).actual_boot_entry
        = some actual := by rw [e1]; exact (set_actual_fields actual s).1
    have hta : truthyStr (set_expected expected (set_actual actual s)).actual_boot_entry
        = true := by rw [hact2]; exact truthyStr_some actual ha
    have hE2 : (set_expected expected (set_actual actual s)).expected_boot_entry
        = some e := by rw [← f2]; exact hE
    have hte : truthyStr (set_expected expected (set_actual actual s)).expected_boot_entry
        = true := by rw [hE2]; exact truthyStr_some e he
    have hT : (truthyStr (set_expected expected (set_actual actual s)).actual_boot_entry
        && truthyStr (set_expected expected (set_actual actual s)).expected_boot_entry)
        = true := by rw [hta, hte]; rfl
    obtain ⟨hstat, hdiag⟩ := compute_match_spec _ hT
    rw [hE2, hact2] at hstat hdiag
    constructor
    · show (compute_match _).boot_match_status = _
      rw [hstat]
      by_cases hcase : e = actual
      · simp [verify_boot_success, hcase]
      · simp [verify_boot_success, hcase]
    · intro hne
      show (compute_match _).diagnosis = generate_diagnosis (compute_match _)
      rw [hdiag]
      have hv : verify_boot_success ((some e).getD "") ((some actual).getD "") = false := by
        simp [verify_boot_success, hne]
      rw [hv]
      simp only [Bool.false_eq_true, if_false]
      exact generate_diagnosis_congr _ _ f3.symm f4.symm

/-- Concrete operation record used as a test fixture. -/
def sampleOp (ty target : String) : OperationRecord :=
  { operation_id := "op1", operation_type := ty, target_entry := target, timestamp := 2 }

/-- Concrete boot session used as a test fixture. -/
def sampleSession (ops : List OperationRecord) : BootSession :=
  { session_id := "boot_1", boot_timestamp := 1, previous_operations := ops,
    actual_boot_entry := none, expected_boot_entry := none,
    boot_match_status := "UNKNOWN", diagnosis := "", event_logs := [] }

/-- Concrete tracker state used as a test fixture: one stored session,
aliased by `current_session`. -/
def sampleState (ops : List OperationRecord) : TrackerState :=
  { sessions := [sampleSession ops], last_boot_time := some 1, has_current := true }

theorem c2_resolve_outcome_witness :
    ∃ s', current_session (update_current_session "E2" none
        (sampleState [sampleOp "SET_DEFAULT" "E1"])) = some s' ∧
      s'.actual_boot_entry = some "E2" := by
  obtain ⟨s', h1, _, h3, _⟩ := c2_resolve_outcome
    (sampleState [sampleOp "SET_DEFAULT" "E1"])
    (sampleSession [sampleOp "SET_DEFAULT" "E1"])
    "E2" none (by decide) (by decide) (fun e h => nomatch h)
  exact ⟨s', h1, h3⟩

/-- C3: whenever resolving the outcome computes a `MISMATCH` (both
entries truthy and unequal), the stored diagnosis is non-empty and
contains the substring "permission errors", and the "cause unknown"
fallback of the diagnosis engine is unreachable. -/
theorem c3_mismatch_diagnosis (s : BootSession) (actual : String) (expected : Option String)
    (hT : (truthyStr (set_expected expected (set_actual actual s)).actual_boot_entry
        && truthyStr (set_expected expected (set_actual actual s)).expected_boot_entry) = true)
    (hne : verify_boot_success
        ((set_expected expected (set_actual actual s)).expected_boot_entry.getD "")
        ((set_expected expected (set_actual actual s)).actual_boot_entry.getD "") = false) :
    (resolve_session actual expected s).boot_match_status = "MISMATCH" ∧
    (resolve_session actual expected s).diagnosis ≠ "" ∧
    containsSub (resolve_session actual expected s).diagnosis "permission errors" = true ∧
    (∀ sx : BootSession, generate_diagnosis sx ≠ "Boot entry mismatch - cause unknown") := by
  obtain ⟨hstat, hdiag⟩ := compute_match_spec _ hT
  rw [hne] at hstat hdiag
  simp only [Bool.false_eq_true, if_false] at hstat hdiag
  refine ⟨hstat, ?_, ?_, fun sx => (generate_diagnosis_content sx).2.2⟩
  · show (compute_match _).diagnosis ≠ ""
    rw [hdiag]
    exact (generate_diagnosis_content _).2.1
  · show containsSub (compute_match _).diagnosis "permission errors" = true
    rw [hdiag]
    exact (generate_diagnosis_content _).1

theorem c3_mismatch_diagnosis_witness :
    (resolve_session "B" (some "A") (sampleSession [])).boot_match_status = "MISMATCH" ∧
    containsSub (resolve_session "B" (some "A") (sampleSession [])).diagnosis
      "permission errors" = true := by
  have h := c3_mismatch_diagnosis (sampleSession []) "B" (some "A") (by decide) (by decide)
  exact ⟨h.1, h.2.2.1⟩

/-- C5 counterexample: a session whose only pending operation is
`BOOT_ONCE` targeting `"A"`, resolved with actual entry `"B"`, computes a
`MISMATCH`, yet the stored diagnosis does not contain the claimed
lowercase substring "boot once may have been cleared" — the code emits
the capitalized fragment "Boot once may have been cleared or system
crashed". -/
theorem c5_counterexample :
    (current_session (update_current_session "B" none
        (sampleState [sampleOp "BOOT_ONCE" "A"]))).map
      (fun s => (s.boot_match_status,
        containsSub s.diagnosis "boot once may have been cleared",
        s.diagnosis))
      = some ("MISMATCH", false,
        "Boot once may have been cleared or system crashed | Check operation logs for permission errors") := by
  decide

/-- C5 (amended): for a session whose pending operations contain a
`BOOT_ONCE` operation, resolving the outcome with no supplied expected
entry and a non-empty actual entry that differs from the (non-empty)
derived expected entry — the target of the most recent pending
`BOOT_ONCE`/`SET_DEFAULT` operation — stores a diagnosis containing the
substring "Boot once may have been cleared" (capitalized as the code
emits it). -/
theorem c5_amended_boot_once (st : TrackerState) (s : BootSession) (actual T : String)
    (hcur : current_session st = some s)
    (hboot : s.previous_operations.any (fun op => op.operation_type == "BOOT_ONCE") = true)
    (hT : (s.previous_operations.reverse.find?
        (fun op => op.operation_type == "BOOT_ONCE"
                || op.operation_type == "SET_DEFAULT")).map
        (fun op => op.target_entry) = some T)
    (hTne : T ≠ "") (hane : actual ≠ "") (hdiff : T ≠ actual) :
    ∃ s', current_session (update_current_session actual none st) = some s' ∧
      s'.boot_match_status = "MISMATCH" ∧
      containsSub s'.diagnosis "Boot once may have been cleared" = true := by
  obtain ⟨op, hf, hop⟩ : ∃ op, s.previous_operations.reverse.find?
      (fun op => op.operation_type == "BOOT_ONCE"
              || op.operation_type == "SET_DEFAULT") = some op ∧
      op.target_entry = T := by
    cases hf : s.previous_operations.reverse.find?
        (fun op => op.operation_type == "BOOT_ONCE"
                || op.operation_type == "SET_DEFAULT") with
    | none => rw [hf] at hT; simp at hT
    | some op =>
      rw [hf] at hT
      exact ⟨op, rfl, by simpa using hT⟩
  have hexp2 : (set_expected none (set_actual actual s)).expected_boot_entry = some T := by
    rw [set_expected_spec_none (set_actual actual s), (set_actual_fields actual s).2.1, hf]
    show some op.target_entry = some T
    rw [hop]
  have hact2 : (set_expected none (set_actual actual s)).actual_boot_entry = some actual := by
    rw [(set_expected_fields none (set_actual actual s)).1]
    exact (set_actual_fields actual s).1
  have hTT : (truthyStr (set_expected none (set_actual actual s)).actual_boot_entry
      && truthyStr (set_expected none (set_actual actual s)).expected_boot_entry) = true := by
    rw [hact2, hexp2, truthyStr_some actual hane, truthyStr_some T hTne]
    rfl
  obtain ⟨hstat, hdiag⟩ := compute_match_spec _ hTT
  rw [hexp2, hact2] at hstat hdiag
  have hv : verify_boot_success ((some T).getD "") ((some actual).getD "") = false := by
    simp [verify_boot_success, hdiff]
  rw [hv] at hstat hdiag
  simp only [Bool.false_eq_true, if_false] at hstat hdiag
  refine ⟨resolve_session actual none s,
    update_current_session_eq st s actual none hcur, hstat, ?_⟩
  show containsSub (compute_match _).diagnosis "Boot once may have been cleared" = true
  rw [hdiag]
  apply generate_diagnosis_bootonce
  rw [(set_expected_fields none (set_actual actual s)).2.1, (set_actual_fields actual s).2.1]
  exact hboot

theorem c5_amended_boot_once_witness :
    ∃ s', current_session (update_current_session "B" none
        (sampleState [sampleOp "BOOT_ONCE" "A"])) = some s' ∧
      s'.boot_match_status = "MISMATCH" ∧
      containsSub s'.diagnosis "Boot once may have been cleared" = true :=
  c5_amended_boot_once (sampleState [sampleOp "BOOT_ONCE" "A"])
    (sampleSession [sampleOp "BOOT_ONCE" "A"]) "B" "A"
    (by decide) (by decide) (by decide) (by decide) (by decide) (by decide)

theorem insertDescTs_perm (e : EventLogEntry) (l : List EventLogEntry) :
    List.Perm (insertDescTs e l) (e :: l) := by
  induction l with
  | nil => exact List.Perm.refl _
  | cons x xs ih =>
    unfold insertDescTs
    by_cases h : x.timestamp ≤ e.timestamp
    · simp [h]
    · simp only [h, if_false]
      exact (ih.cons x).trans (List.Perm.swap e x xs)

theorem insertDescTs_sorted (e : EventLogEntry) (l : List EventLogEntry)
    (h : List.Pairwise (fun a b => b.timestamp ≤ a.timestamp) l) :
    List.Pairwise (fun a b => b.timestamp ≤ a.timestamp) (insertDescTs e l) := by
  induction l with
  | nil => simp [insertDescTs]
  | cons x xs ih =>
    rw [List.pairwise_cons] at h
    unfold insertDescTs
    by_cases hc : x.timestamp ≤ e.timestamp
    · simp only [hc, if_true]
      rw [List.pairwise_cons]
      refine ⟨?_, List.pairwise_cons.mpr h⟩
      intro b hb
      rcases List.mem_cons.mp hb with hb | hb
      · rw [hb]; exact hc
      · exact le_trans (h.1 b hb) hc
    · simp only [hc, if_false]
      rw [List.pairwise_cons]
      refine ⟨?_, ih h.2⟩
      intro b hb
      have hb2 := (insertDescTs_perm e xs).mem_iff.mp hb
      rcases List.mem_cons.mp hb2 with hb2 | hb2
      · rw [hb2]; exact le_of_lt (lt_of_not_le hc)
      · exact h.1 b hb2

theorem sortDescTs_perm (l : List EventLogEntry) : List.Perm (sortDescTs l) l := by
  induction l with
  | nil => exact List.Perm.refl _
  | cons x xs ih => exact (insertDescTs_perm x (sortDescTs xs)).trans (ih.cons x)

theorem sortDescTs_sorted (l : List EventLogEntry) :
    List.Pairwise (fun a b => b.timestamp ≤ a.timestamp) (sortDescTs l) := by
  induction l with
  | nil => simp [sortDescTs]
  | cons x xs ih => exact insertDescTs_sorted x (sortDescTs xs) ih

/-- A query attempt counts as failed when it timed out, raised, or exited
with a nonzero status (the spec's external-tool failure taxonomy). -/
def query_failed (o : QueryOutcome) : Prop :=
  o = QueryOutcome.timeout ∨ o = QueryOutcome.failure ∨
    ∃ rc out, o = QueryOutcome.ok rc out ∧ rc ≠ 0

theorem query_log_failed (env : QuerySpec → QueryOutcome) (now : Int)
    (name : String) (filt : Option String) (n : Nat)
    (h : query_failed (env { log_name := name, event_id_filter := filt, max_events := n })) :
    query_log env now name filt n = [] := by
  unfold query_log
  rcases h with h | h | ⟨rc, out, h, hrc⟩ <;> rw [h]
  simp [hrc]

theorem postprocess_events_nil (since : Option Int) (max_events : Nat) :
    postprocess_events [] since max_events = [] := by
  unfold postprocess_events
  cases h : truthyInt since <;> simp [h, sortDescTs]

/-- The query `collect_boot_events` issues against the `System` log:
identifier-filtered, full event budget. -/
def system_spec (max_events : Nat) : QuerySpec :=
  { log_name := "System", event_id_filter := some event_id_filter, max_events := max_events }

/-- The query `collect_boot_events` issues against the `Application` log:
no identifier filter, half the event budget. -/
def application_spec (max_events : Nat) : QuerySpec :=
  { log_name := "Application", event_id_filter := none, max_events := max_events / 2 }

/-- C7: a failed permission probe forces empty collection results;
whenever either event-log query fails or times out, `collect_boot_events`
degrades to the other log's processed results alone (a failed `System`
query leaves the `Application` results, a failed `Application` query
leaves the `System` results); and when both queries fail the result is
the empty list — the embedding is total, so no exception reaches the
caller. -/
theorem c7_collector_error_handling (env : QuerySpec → QueryOutcome) (now : Int)
    (since : Option Int) (max_events : Nat) (probe : QueryOutcome) :
    (check_permissions probe = false →
      collect_boot_events (check_permissions probe) env now since max_events = []) ∧
    (query_failed (env (system_spec max_events)) →
      collect_boot_events true env now since max_events =
        postprocess_events (query_log env now "Application" none (max_events / 2))
          since max_events) ∧
    (query_failed (env (application_spec max_events)) →
      collect_boot_events true env now since max_events =
        postprocess_events (query_log env now "System" (some event_id_filter) max_events)
          since max_events) ∧
    (query_failed (env (system_spec max_events)) →
     query_failed (env (application_spec max_events)) →
      collect_boot_events true env now since max_events = []) := by
  have hsysCase : query_failed (env (system_spec max_events)) →
      collect_boot_events true env now since max_events =
        postprocess_events (query_log env now "Application" none (max_events / 2))
          since max_events := by
    intro hsys
    unfold collect_boot_events
    rw [query_log_failed env now "System" (some event_id_filter) max_events hsys]
    rfl
  refine ⟨?_, hsysCase, ?_, ?_⟩
  · intro h
    rw [h]
    rfl
  · intro happ
    unfold collect_boot_events
    rw [query_log_failed env now "Application" none (max_events / 2) happ,
      List.append_nil]
    rfl
  · intro hsys happ
    rw [hsysCase hsys,
      query_log_failed env now "Application" none (max_events / 2) happ,
      postprocess_events_nil]

theorem c7_collector_error_handling_witness :
    collect_boot_events (check_permissions QueryOutcome.timeout)
      (fun _ => QueryOutcome.timeout) 0 none 50 = [] ∧
    collect_boot_events true (fun _ => QueryOutcome.timeout) 0 none 50 = [] ∧
    collect_boot_events true
      (fun sp => if sp.log_name == "Application" then QueryOutcome.timeout
        else QueryOutcome.ok 0 "Event ID: 12") 0 none 50 =
      postprocess_events
        (query_log
          (fun sp => if sp.log_name == "Application" then QueryOutcome.timeout
            else QueryOutcome.ok 0 "Event ID: 12") 0 "System" (some event_id_filter) 50)
        none 50 := by
  have h := c7_collector_error_handling (fun _ => QueryOutcome.timeout) 0 none 50
    QueryOutcome.timeout
  have h2 := c7_collector_error_handling
    (fun sp => if sp.log_name == "Application" then QueryOutcome.timeout
      else QueryOutcome.ok 0 "Event ID: 12") 0 none 50 QueryOutcome.timeout
  exact ⟨h.1 rfl, h.2.2.2 (Or.inl rfl) (Or.inl rfl), h2.2.2.1 (Or.inl rfl)⟩

/-- Pipeline written from the spec's words, for comparison with
`collect_boot_events`: merge the two query results, filter to
`timestamp >= sinceTimestamp` when one is given, sort descending by
timestamp, truncate to `max_events`. -/
def spec_collect (primary secondary : List EventLogEntry) (since_timestamp : Option Int)
    (max_events : Nat) : List EventLogEntry :=
  let merged := primary ++ secondary
  let filtered :=
    match since_timestamp with
    | some t => merged.filter (fun e => t ≤ e.timestamp)
    | none => merged
  (sortDescTs filtered).take max_events

theorem all_isSome_any_isNone (l : List (Option EventLogEntry))
    (h : l.all (fun o => o.isSome) = true) : l.any (fun o => o.isNone) = false := by
  induction l with
  | nil => rfl
  | cons a t ih =>
    rw [List.all_cons, Bool.and_eq_true] at h
    rw [List.any_cons, ih h.2, Bool.or_false]
    cases a with
    | none => exact absurd h.1 (by simp)
    | some v => rfl

/-- C8: with well-formed query output (no unparsable paragraph) and a
filter threshold the code treats as given (`since ≠ some 0`, Python
truthiness), `collect_boot_events` equals the spec pipeline — merge of
the identifier-filtered `System` query and the unfiltered half-budget
`Application` query, threshold-filtered, sorted descending by timestamp,
truncated — and the result is within the budget, sorted descending, and
drawn from the merged, threshold-respecting entries. -/
theorem c8_collect_merge_sort_truncate (env : QuerySpec → QueryOutcome) (now : Int)
    (since : Option Int) (max_events : Nat)
    (hwf : (query_log env now "System" (some event_id_filter) max_events
        ++ query_log env now "Application" none (max_events / 2)).all
          (fun o => o.isSome) = true)
    (hs : since ≠ some 0) :
    collect_boot_events true env now since max_events =
      spec_collect
        ((query_log env now "System" (some event_id_filter) max_events).filterMap id)
        ((query_log env now "Application" none (max_events / 2)).filterMap id)
        since max_events ∧
    (collect_boot_events true env now since max_events).length ≤ max_events ∧
    List.Pairwise (fun a b => b.timestamp ≤ a.timestamp)
      (collect_boot_events true env now since max_events) ∧
    (∀ e ∈ collect_boot_events true env now since max_events,
      e ∈ ((query_log env now "System" (some event_id_filter) max_events).filterMap id
        ++ (query_log env now "Application" none (max_events / 2)).filterMap id) ∧
      (∀ t, since = some t → t ≤ e.timestamp)) := by
  have hnone := all_isSome_any_isNone _ hwf
  have hEq : collect_boot_events true env now since max_events =
      spec_collect
        ((query_log env now "System" (some event_id_filter) max_events).filterMap id)
        ((query_log env now "Application" none (max_events / 2)).filterMap id)
        since max_events := by
    unfold collect_boot_events postprocess_events spec_collect
    rw [hnone]
    simp only [Bool.false_eq_true, if_false, List.filterMap_append]
    cases since with
    | none => simp [truthyInt]
    | some t =>
      have ht : t ≠ 0 := fun h0 => hs (by rw [h0])
      simp [truthyInt, ht]
  refine ⟨hEq, ?_, ?_, ?_⟩
  · rw [hEq]
    show ((sortDescTs _).take max_events).length ≤ max_events
    rw [List.length_take]
    exact Nat.min_le_left _ _
  · rw [hEq]
    exact List.Pairwise.sublist (List.take_sublist _ _) (sortDescTs_sorted _)
  · intro e he
    rw [hEq] at he
    rcases since with _ | t
    · have h1 := (List.take_sublist max_events
        (sortDescTs
          ((query_log env now "System" (some event_id_filter) max_events).filterMap id
            ++ (query_log env now "Application" none (max_events / 2)).filterMap id))).subset he
      have h2 := (sortDescTs_perm _).mem_iff.mp h1
      exact ⟨h2, fun t ht => nomatch ht⟩
    · have h1 := (List.take_sublist max_events
        (sortDescTs
          (((query_log env now "System" (some event_id_filter) max_events).filterMap id
            ++ (query_log env now "Application" none (max_events / 2)).filterMap id).filter
            (fun x => t ≤ x.timestamp)))).subset he
      have h2 := (sortDescTs_perm _).mem_iff.mp h1
      have h3 := List.mem_filter.mp h2
      refine ⟨h3.1, ?_⟩
      intro t2 ht2
      cases ht2
      exact of_decide_eq_true h3.2

theorem c8_collect_merge_sort_truncate_witness :
    (collect_boot_events true
      (fun sp => if sp.log_name == "System"
        then QueryOutcome.ok 0 "Event ID: 12\n\nEvent ID: 41"
        else QueryOutcome.ok 0 "Event ID: 7") 5 none 50).length ≤ 50 :=
  (c8_collect_merge_sort_truncate
    (fun sp => if sp.log_name == "System"
      then QueryOutcome.ok 0 "Event ID: 12\n\nEvent ID: 41"
      else QueryOutcome.ok 0 "Event ID: 7") 5 none 50
    (by decide) (by decide)).2.1

/-- C6: on output containing a paragraph whose `Event ID` value is not
numeric, `_create_event_entry` gives up and `_parse_event_output` appends
the resulting `None` to the batch instead of skipping the record, and
`collect_boot_events` — whose timestamp filter or sort key then raises on
the `None` — returns `[]`, discarding the surrounding well-formed
records (here the entries with identifiers 12 and 13). -/
theorem c6_malformed_record_poisons_batch :
    (parse_event_output
      "Event ID: 12\nDescription: ok\n\nEvent ID: abc\nDescription: bad\n\nEvent ID: 13\nDescription: ok2"
      "System" 99).map (fun o => o.map (fun e => e.event_id)) = [some 12, none, some 13] ∧
    collect_boot_events true
      (fun sp => if sp.log_name == "System"
        then QueryOutcome.ok 0
          "Event ID: 12\nDescription: ok\n\nEvent ID: abc\nDescription: bad\n\nEvent ID: 13\nDescription: ok2"
        else QueryOutcome.ok 0 "") 99 none 50 = [] := by
  decide
